import Mathlib

/-
Verification of the iousbhost crate (src/iousbhost/src/lib.rs): a shallow
embedding of the error-mapping wrappers, the callback-to-future bridge,
the numeric enum conversions and the configuration-descriptor iterator,
together with spec-modelled versions of the native descriptor walkers,
power derivation and host-controller state machines that the crate binds
to but whose implementations live in the external IOUSBHost framework.
-/

/-- The UsbError enum of src/iousbhost/src/lib.rs (lines 12-64). -/
inductive UsbError where
  | InvalidAddress
  | ProtectionFailure
  | NoSpace
  | InvalidArgument
  | Failure
  | ResourceShortage
  | NotReceiver
  | NoAccess
  | MemoryFailure
  | MemoryError
  | AlreadyInSet
  | NotInSet
  | NameExists
  | Aborted
  | InvalidName
  | InvalidTask
  | InvalidRight
  | InvalidValue
  | UrefsOverflow
  | InvalidCapability
  | RightExists
  | InvalidHost
  | MemoryPresent
  | MemoryDataMoved
  | MemoryRestartCopy
  | InvalidProcessorSet
  | PolicyLimit
  | InvalidPolicy
  | InvalidObject
  | AlreadyWaiting
  | DefaultSet
  | ExceptionProtected
  | InvalidLedger
  | InvalidMemoryControl
  | InvalidSecurity
  | NotDepressed
  | Terminated
  | LockSetDestroyed
  | LockUnstable
  | LockOwned
  | LockOwnedSelf
  | SemaphoreDestroyed
  | RpcServerTerminated
  | RpcTerminateOrphan
  | RpcContinueOrphan
  | NotSupported
  | NodeDown
  | NotWaiting
  | OperationTimedOut
  | Unknown
deriving DecidableEq, Repr

/-- Outcome of evaluating a Rust expression of type Result: it either
returns Ok, returns Err, or the evaluation panics (a todo! or an
arithmetic-overflow check firing). -/
inductive RustResult (α : Type) where
  | ok (val : α)
  | err (e : UsbError)
  | panicked
deriving DecidableEq, Repr

/-- Embeds impl From of NSErr for UsbError (src/iousbhost/src/lib.rs lines
1554-1561). The Rust body matches on the NSError code and its only arm is
the wildcard whose body is a todo! macro, so the conversion never produces
a UsbError value: evaluating it panics for every code. -/
def usbError_from_nserr (code : Int) : RustResult UsbError :=
  match code with
  | _ => RustResult.panicked

/-- Embeds the expression Err(err.into()) that every error path of the
wrappers evaluates: the From conversion runs first and its outcome
propagates (a panic in the conversion is a panic of the whole call). -/
def err_into (α : Type) (code : Int) : RustResult α :=
  match usbError_from_nserr code with
  | RustResult.ok e => RustResult.err e
  | RustResult.err e => RustResult.err e
  | RustResult.panicked => RustResult.panicked

/-- Embeds UsbDevice::send_device_request (src/iousbhost/src/lib.rs lines
217-228). The native sendDeviceRequest call is abstracted by its returned
success boolean and the NSError code it left behind; the wrapper returns
Ok(()) when the native call returns true and evaluates Err(err.into())
when it returns false. -/
def send_device_request (native_ok : Bool) (err_code : Int) : RustResult Unit :=
  if ! native_ok then err_into Unit err_code else RustResult.ok ()

/-- Embeds HostPipe send_control_request (src/iousbhost/src/lib.rs lines
701-712); identical shape to send_device_request. -/
def send_control_request (native_ok : Bool) (err_code : Int) : RustResult Unit :=
  if ! native_ok then err_into Unit err_code else RustResult.ok ()

/-- Embeds send_io_request (src/iousbhost/src/lib.rs lines 756-774): on
native success it returns Ok(transferred), on native failure it evaluates
Err(err.into()). -/
def send_io_request (native_ok : Bool) (err_code : Int) (transferred : Nat) : RustResult Nat :=
  if ! native_ok then err_into Nat err_code else RustResult.ok transferred

/-- Embeds EndpointStateMachine::respond (src/iousbhost/src/lib.rs lines
3052-3065): if the native respondToCommand call returns false the wrapper
evaluates Err(err.into()), else Ok(()). -/
def endpoint_respond (native_ret : Bool) (err_code : Int) : RustResult Unit :=
  if ! native_ret then err_into Unit err_code else RustResult.ok ()

/-- Embeds PortStateMachine::respond (src/iousbhost/src/lib.rs lines
3351-3361); same shape as the endpoint wrapper. -/
def port_respond (native_ret : Bool) (err_code : Int) : RustResult Unit :=
  if ! native_ret then err_into Unit err_code else RustResult.ok ()

/-- Embeds ControllerStateMachine::respond (src/iousbhost/src/lib.rs lines
3277-3307). Both arms of the frame_timestamp match call a native
respondToCommand variant returning the same boolean; the source binds that
boolean to a variable named is_err and returns Err(err.into()) when it is
true and Ok(()) when it is false. -/
def controller_respond (native_ret : Bool) (err_code : Int)
    (frame_timestamp : Option (Nat × Nat)) : RustResult Unit :=
  let is_err :=
    match frame_timestamp with
    | some _ => native_ret
    | none => native_ret
  if is_err then err_into Unit err_code else RustResult.ok ()

/-- Embeds DeviceStateMachine::respond (src/iousbhost/src/lib.rs lines
3453-3480). As in the controller wrapper, the native success boolean is
bound to is_err and Err is taken when it is true. -/
def device_respond (native_ret : Bool) (err_code : Int)
    (device_address : Option Nat) : RustResult Unit :=
  let is_err :=
    match device_address with
    | some _ => native_ret
    | none => native_ret
  if is_err then err_into Unit err_code else RustResult.ok ()

/-- C1: the claim says that when the underlying native call reports
failure, the synchronous request operations return Err(UsbError) and do
not panic. In the code every such error path evaluates Err(err.into());
the From conversion from NSErr to UsbError is an unimplemented todo!, so
the operation panics instead of returning an error value. Evaluated here
at the failing input: native call reports failure with NSError code 5. -/
theorem c1_send_request_error_path_panics :
    send_device_request false 5 = RustResult.panicked ∧
    send_control_request false 5 = RustResult.panicked ∧
    send_io_request false 5 0 = RustResult.panicked := by
  refine ⟨rfl, rfl, rfl⟩

/-- C2: the claim says respond returns Ok(()) exactly on native success
and Err exactly on native failure, for all four state machines. The
convention of the native respondToCommand family (used correctly by the
endpoint and port wrappers, and by every other wrapper in the file) is
that the returned boolean is true on success. The controller and device
wrappers bind that boolean to is_err and invert the mapping: on native
failure (false) they return Ok(()), and on native success (true) they
take the Err path — which moreover panics in the unimplemented From
conversion instead of producing an Err, for all four machines. -/
theorem c2_respond_result_mapping_bug :
    controller_respond false 5 none = RustResult.ok () ∧
    controller_respond true 5 none = RustResult.panicked ∧
    device_respond false 5 none = RustResult.ok () ∧
    device_respond true 5 none = RustResult.panicked ∧
    endpoint_respond true 5 = RustResult.ok () ∧
    endpoint_respond false 5 = RustResult.panicked ∧
    port_respond true 5 = RustResult.ok () ∧
    port_respond false 5 = RustResult.panicked := by
  refine ⟨rfl, rfl, rfl, rfl, rfl, rfl, rfl, rfl⟩

/-- State shared by an async bridge instance (AsyncHandler or
AsyncDataHandler, src/iousbhost/src/lib.rs lines 3551-3641): the finished
flag guarded by a mutex, instrumented with the number of times the
cb_handler closure (the native enqueue operation) has been invoked. -/
structure HandlerState where
  finished : Bool
  cbCalls : Nat
deriving DecidableEq, Repr

/-- Result of one poll of an async bridge future. -/
inductive PollRes where
  | pending
  | readyOk
  | readyErr (e : UsbError)
deriving DecidableEq, Repr

/-- The state both constructors build (src/iousbhost/src/lib.rs lines
3562-3572 and 3609-3617): finished is false and the native operation has
not been invoked. -/
def initHandler : HandlerState := { finished := false, cbCalls := 0 }

/-- Embeds AsyncHandler::poll (src/iousbhost/src/lib.rs lines 3620-3641).
If the finished flag is set, the poll returns Ready(Ok(())) and touches
nothing. If it is unset, the poll boxes a fresh wake callback and invokes
cb_handler (counted here); when cb_handler reports an immediate error the
poll returns Ready(Err(e)), otherwise Pending. The cbResult argument
abstracts what cb_handler would return on this invocation. -/
def pollAsyncHandler (cbResult : Option UsbError) (s : HandlerState) :
    PollRes × HandlerState :=
  if s.finished then (PollRes.readyOk, s)
  else
    match cbResult with
    | some e => (PollRes.readyErr e, { s with cbCalls := s.cbCalls + 1 })
    | none => (PollRes.pending, { s with cbCalls := s.cbCalls + 1 })

/-- Embeds AsyncDataHandler::poll (src/iousbhost/src/lib.rs lines
3579-3598); the control flow is identical to AsyncHandler::poll, with the
owned data buffer passed through to cb_handler. -/
def pollAsyncDataHandler (cbResult : Option UsbError) (s : HandlerState) :
    PollRes × HandlerState :=
  if s.finished then (PollRes.readyOk, s)
  else
    match cbResult with
    | some e => (PollRes.readyErr e, { s with cbCalls := s.cbCalls + 1 })
    | none => (PollRes.pending, { s with cbCalls := s.cbCalls + 1 })

/-- Embeds the one-shot callback built by gen_callback
(src/iousbhost/src/lib.rs lines 3540-3546): it sets the shared finished
flag to true and wakes the task. It records nothing else — in particular
no error value. -/
def fireCallback (s : HandlerState) : HandlerState :=
  { s with finished := true }

/-- An event in the life of a bridge instance: a poll by the executor
(carrying what cb_handler would return if invoked) or the native
completion callback firing. -/
inductive BridgeEvent where
  | poll (cbResult : Option UsbError)
  | fire
deriving DecidableEq, Repr

/-- Runs a sequence of bridge events against a poll function, threading
the handler state. -/
def runBridge (pollFn : Option UsbError → HandlerState → PollRes × HandlerState)
    (evs : List BridgeEvent) (s : HandlerState) : HandlerState :=
  match evs with
  | [] => s
  | BridgeEvent.poll r :: rest => runBridge pollFn rest (pollFn r s).2
  | BridgeEvent.fire :: rest => runBridge pollFn rest (fireCallback s)

/-- Counts the polls in an event sequence that observe the finished flag
unset, threading the same state evolution as runBridge. -/
def unsetPolls (pollFn : Option UsbError → HandlerState → PollRes × HandlerState)
    (evs : List BridgeEvent) (s : HandlerState) : Nat :=
  match evs with
  | [] => 0
  | BridgeEvent.poll r :: rest =>
      (if s.finished then 0 else 1) + unsetPolls pollFn rest (pollFn r s).2
  | BridgeEvent.fire :: rest => unsetPolls pollFn rest (fireCallback s)

/-- Runs a sequence of polls (no intervening callback), collecting each
poll's result. -/
def runPollResults
    (pollFn : Option UsbError → HandlerState → PollRes × HandlerState)
    (rs : List (Option UsbError)) (s : HandlerState) :
    List PollRes × HandlerState :=
  match rs with
  | [] => ([], s)
  | r :: rest =>
      let step := pollFn r s
      let tail := runPollResults pollFn rest step.2
      (step.1 :: tail.1, tail.2)

/-- C3 counterexample: the claim says the native enqueue operation is
invoked at most once across any sequence of polls, later polls that find
the completion flag unset not starting it again. A fresh AsyncHandler
polled twice before the callback fires invokes cb_handler on both polls:
the invocation count is 2, refuting the at-most-once bound. -/
theorem c3_cb_handler_invoked_twice :
    ¬ (runBridge pollAsyncHandler
        [BridgeEvent.poll none, BridgeEvent.poll none] initHandler).cbCalls ≤ 1 := by
  decide

/-- C3 amended: for both bridge variants, cb_handler is invoked exactly on
those polls that observe the completion flag unset — not only on the
first poll — and a poll that observes the flag set never invokes it. The
at-most-once guarantee therefore holds only for schedules in which at
most one poll observes the flag unset (such as the intended one, where
the future is re-polled only after the completion callback fires). -/
theorem c3_cb_handler_invocations_eq_unset_polls :
    (∀ evs s, (runBridge pollAsyncHandler evs s).cbCalls
        = s.cbCalls + unsetPolls pollAsyncHandler evs s) ∧
    (∀ evs s, (runBridge pollAsyncDataHandler evs s).cbCalls
        = s.cbCalls + unsetPolls pollAsyncDataHandler evs s) ∧
    (∀ s r, s.finished = true →
      (pollAsyncHandler r s).2.cbCalls = s.cbCalls ∧
      (pollAsyncDataHandler r s).2.cbCalls = s.cbCalls) := by
  have key : ∀ (pf : Option UsbError → HandlerState → PollRes × HandlerState),
      (∀ r s, (pf r s).2.cbCalls = s.cbCalls + (if s.finished then 0 else 1)) →
      ∀ evs s, (runBridge pf evs s).cbCalls = s.cbCalls + unsetPolls pf evs s := by
    intro pf hpf evs
    induction evs with
    | nil => intro s; simp [runBridge, unsetPolls]
    | cons ev rest ih =>
      intro s
      cases ev with
      | poll r =>
        simp only [runBridge, unsetPolls, ih, hpf]
        omega
      | fire =>
        simp only [runBridge, unsetPolls, ih, fireCallback]
  have hstep : ∀ r (s : HandlerState),
      (pollAsyncHandler r s).2.cbCalls = s.cbCalls + (if s.finished then 0 else 1) := by
    intro r s
    by_cases h : s.finished <;> cases r <;> simp [pollAsyncHandler, h]
  have hstep' : ∀ r (s : HandlerState),
      (pollAsyncDataHandler r s).2.cbCalls = s.cbCalls + (if s.finished then 0 else 1) := by
    intro r s
    by_cases h : s.finished <;> cases r <;> simp [pollAsyncDataHandler, h]
  refine ⟨key _ hstep, key _ hstep', ?_⟩
  intro s r h
  constructor <;> simp [pollAsyncHandler, pollAsyncDataHandler, h]

/-- Witness for the amended C3 theorem at concrete inputs: two unset
polls from a fresh handler give invocation count 0 + 2, and a poll on a
finished handler leaves the count unchanged. -/
theorem c3_cb_handler_invocations_eq_unset_polls_witness :
    (runBridge pollAsyncHandler
        [BridgeEvent.poll none, BridgeEvent.poll none] initHandler).cbCalls
      = initHandler.cbCalls
        + unsetPolls pollAsyncHandler
            [BridgeEvent.poll none, BridgeEvent.poll none] initHandler ∧
    (pollAsyncHandler none { finished := true, cbCalls := 1 }).2.cbCalls = 1 :=
  ⟨c3_cb_handler_invocations_eq_unset_polls.1
      [BridgeEvent.poll none, BridgeEvent.poll none] initHandler,
   (c3_cb_handler_invocations_eq_unset_polls.2.2
      { finished := true, cbCalls := 1 } none rfl).1⟩

/-- C4: once the native completion callback has fired (the shared
finished flag is set), every poll of either bridge variant resolves Ready
with the recorded outcome and leaves the state untouched, so every
subsequent poll returns that same result. The callback built by
gen_callback records only the flag — never an error — so the recorded
error is always absent and the resolution is always success, Ok(()). -/
theorem c4_poll_after_completion_ready_ok :
    ∀ s : HandlerState, s.finished = true →
      (∀ r, pollAsyncHandler r s = (PollRes.readyOk, s) ∧
            pollAsyncDataHandler r s = (PollRes.readyOk, s)) ∧
      (∀ rs, runPollResults pollAsyncHandler rs s
              = (rs.map fun _ => PollRes.readyOk, s) ∧
             runPollResults pollAsyncDataHandler rs s
              = (rs.map fun _ => PollRes.readyOk, s)) := by
  intro s h
  have hp : ∀ r, pollAsyncHandler r s = (PollRes.readyOk, s) := by
    intro r; simp [pollAsyncHandler, h]
  have hp' : ∀ r, pollAsyncDataHandler r s = (PollRes.readyOk, s) := by
    intro r; simp [pollAsyncDataHandler, h]
  refine ⟨fun r => ⟨hp r, hp' r⟩, ?_⟩
  intro rs
  induction rs with
  | nil => simp [runPollResults]
  | cons r rest ih =>
    constructor
    · simp [runPollResults, hp r, ih.1]
    · simp [runPollResults, hp' r, ih.2]

/-- Witness for C4 at a concrete finished state and a concrete poll
sequence, including a poll whose cb_handler would have reported an error:
it is never invoked, and every poll resolves Ready(Ok(())). -/
theorem c4_poll_after_completion_ready_ok_witness :
    pollAsyncHandler (some UsbError.Failure) { finished := true, cbCalls := 1 }
      = (PollRes.readyOk, { finished := true, cbCalls := 1 }) ∧
    runPollResults pollAsyncDataHandler [none, some UsbError.Aborted]
        { finished := true, cbCalls := 1 }
      = ([PollRes.readyOk, PollRes.readyOk], { finished := true, cbCalls := 1 }) := by
  have h := c4_poll_after_completion_ready_ok { finished := true, cbCalls := 1 } rfl
  exact ⟨(h.1 (some UsbError.Failure)).1,
    by
      have h2 := (h.2 [none, some UsbError.Aborted]).2
      simpa using h2⟩

/-- The DescriptorType enum of src/iousbhost/src/lib.rs (lines 1190-1212),
with the Other variant carrying the raw byte. -/
inductive DescriptorType where
  | Device
  | Configuration
  | StringDesc
  | Interface
  | Endpoint
  | DeviceQualifier
  | OtherSpeedConfig
  | InterfacePower
  | OTG
  | Debug
  | InterfaceAssociation
  | CapabilityDescriptor
  | DeviceCapability
  | HID
  | Report
  | Physical
  | Hub
  | SuperSpeedHub
  | SuperSpeedEndpointCompanion
  | SuperSpeedPlusIsochronousEndpointCompanion
  | Other (num : Nat)
deriving DecidableEq, Repr

/-- Embeds impl From of u8 for DescriptorType (src/iousbhost/src/lib.rs
lines 1214-1241); the u8 is modelled as a Nat below 256. -/
def descriptorType_from_u8 (num : Nat) : DescriptorType :=
  match num with
  | 1 => DescriptorType.Device
  | 2 => DescriptorType.Configuration
  | 3 => DescriptorType.StringDesc
  | 4 => DescriptorType.Interface
  | 5 => DescriptorType.Endpoint
  | 6 => DescriptorType.DeviceQualifier
  | 7 => DescriptorType.OtherSpeedConfig
  | 8 => DescriptorType.InterfacePower
  | 9 => DescriptorType.OTG
  | 10 => DescriptorType.Debug
  | 11 => DescriptorType.InterfaceAssociation
  | 15 => DescriptorType.CapabilityDescriptor
  | 16 => DescriptorType.DeviceCapability
  | 33 => DescriptorType.HID
  | 34 => DescriptorType.Report
  | 35 => DescriptorType.Physical
  | 41 => DescriptorType.Hub
  | 42 => DescriptorType.SuperSpeedHub
  | 48 => DescriptorType.SuperSpeedEndpointCompanion
  | 49 => DescriptorType.SuperSpeedPlusIsochronousEndpointCompanion
  | other => DescriptorType.Other other

/-- Embeds impl From of DescriptorType for u8 (src/iousbhost/src/lib.rs
lines 1243-1270). -/
def u8_from_descriptorType (desc : DescriptorType) : Nat :=
  match desc with
  | DescriptorType.Device => 1
  | DescriptorType.Configuration => 2
  | DescriptorType.StringDesc => 3
  | DescriptorType.Interface => 4
  | DescriptorType.Endpoint => 5
  | DescriptorType.DeviceQualifier => 6
  | DescriptorType.OtherSpeedConfig => 7
  | DescriptorType.InterfacePower => 8
  | DescriptorType.OTG => 9
  | DescriptorType.Debug => 10
  | DescriptorType.InterfaceAssociation => 11
  | DescriptorType.CapabilityDescriptor => 15
  | DescriptorType.DeviceCapability => 16
  | DescriptorType.HID => 33
  | DescriptorType.Report => 34
  | DescriptorType.Physical => 35
  | DescriptorType.Hub => 41
  | DescriptorType.SuperSpeedHub => 42
  | DescriptorType.SuperSpeedEndpointCompanion => 48
  | DescriptorType.SuperSpeedPlusIsochronousEndpointCompanion => 49
  | DescriptorType.Other o => o

/-- The DeviceSpeed enum of src/iousbhost/src/lib.rs (lines 3832-3843). -/
inductive DeviceSpeed where
  | NoneSpeed
  | Full
  | Low
  | High
  | Super
  | SuperPlus
  | SuperPlusBy2
  | Other (num : Nat)
deriving DecidableEq, Repr

/-- Embeds impl From of u32 for DeviceSpeed (src/iousbhost/src/lib.rs
lines 3845-3859); the u32 is modelled as a Nat below 2 ^ 32. -/
def deviceSpeed_from_u32 (num : Nat) : DeviceSpeed :=
  match num with
  | 0 => DeviceSpeed.NoneSpeed
  | 1 => DeviceSpeed.Full
  | 2 => DeviceSpeed.Low
  | 3 => DeviceSpeed.High
  | 4 => DeviceSpeed.Super
  | 5 => DeviceSpeed.SuperPlus
  | 6 => DeviceSpeed.SuperPlusBy2
  | other => DeviceSpeed.Other other

/-- Embeds impl From of DeviceSpeed for u32 (src/iousbhost/src/lib.rs
lines 3861-3875). -/
def u32_from_deviceSpeed (speed : DeviceSpeed) : Nat :=
  match speed with
  | DeviceSpeed.NoneSpeed => 0
  | DeviceSpeed.Full => 1
  | DeviceSpeed.Low => 2
  | DeviceSpeed.High => 3
  | DeviceSpeed.Super => 4
  | DeviceSpeed.SuperPlus => 5
  | DeviceSpeed.SuperPlusBy2 => 6
  | DeviceSpeed.Other other => other

/-- C9: converting a byte into DescriptorType and back yields the byte,
and converting a u32 into DeviceSpeed and back yields the u32; values
outside the named variants travel through the Other variant. -/
theorem c9_numeric_roundtrips :
    (∀ b : Nat, b < 256 → u8_from_descriptorType (descriptorType_from_u8 b) = b) ∧
    (∀ n : Nat, n < 2 ^ 32 → u32_from_deviceSpeed (deviceSpeed_from_u32 n) = n) := by
  constructor
  · intro b _
    unfold descriptorType_from_u8
    split <;> rfl
  · intro n _
    unfold deviceSpeed_from_u32
    split <;> rfl

/-- Witness for C9 at concrete inputs: a named variant value and an
Other-variant value on each conversion. -/
theorem c9_numeric_roundtrips_witness :
    u8_from_descriptorType (descriptorType_from_u8 33) = 33 ∧
    u8_from_descriptorType (descriptorType_from_u8 200) = 200 ∧
    u32_from_deviceSpeed (deviceSpeed_from_u32 4) = 4 ∧
    u32_from_deviceSpeed (deviceSpeed_from_u32 100) = 100 :=
  ⟨c9_numeric_roundtrips.1 33 (by decide),
   c9_numeric_roundtrips.1 200 (by decide),
   c9_numeric_roundtrips.2 4 (by decide),
   c9_numeric_roundtrips.2 100 (by decide)⟩

/-- The ConfigurationDescriptors iterator state
(src/iousbhost/src/lib.rs lines 3005-3009): the current index and the
configuration count read from the device descriptor, both u8 (modelled as
Nat). The dev field is abstracted by the oracle passed to cdNext. -/
structure ConfigurationDescriptors where
  idx : Nat
  configuration_count : Nat
deriving DecidableEq, Repr

/-- Embeds UsbHostObject::configuration_descriptors
(src/iousbhost/src/lib.rs lines 2920-2928): the iterator starts at index
0 with the configuration count reported by the device descriptor. -/
def configuration_descriptors (count : Nat) : ConfigurationDescriptors :=
  { idx := 0, configuration_count := count }

/-- Embeds ConfigurationDescriptors::next (src/iousbhost/src/lib.rs lines
3011-3033). The native configurationDescriptorWithIndex call is
abstracted by an oracle giving, per index, either an NSError code or a
possibly-null descriptor pointer (a non-null pointer is an opaque Nat).
The comparison idx == configuration_count - 1 evaluates the u8
subtraction configuration_count - 1 first: for configuration_count = 0
this overflows, which the overflow check of the u8 arithmetic reports
(modelled as the panicked outcome). On an NSError the iterator prints and
returns None without advancing; otherwise it advances idx and returns the
Option produced by ConfigurationDescriptor::new on the pointer. -/
def cdNext (dev : Nat → Except Int (Option Nat)) (s : ConfigurationDescriptors) :
    RustResult (Option Nat × ConfigurationDescriptors) :=
  if s.configuration_count = 0 then RustResult.panicked
  else if s.idx = s.configuration_count - 1 then RustResult.ok (none, s)
  else
    match dev s.idx with
    | Except.error _ => RustResult.ok (none, s)
    | Except.ok ptr => RustResult.ok (ptr, { s with idx := s.idx + 1 })

/-- Drives cdNext like a for loop, collecting the yielded descriptors;
the fuel bounds the number of next calls, and iteration stops at the
first None (or at a panic). -/
def cdRun (dev : Nat → Except Int (Option Nat)) (s : ConfigurationDescriptors)
    (fuel : Nat) : List Nat :=
  match fuel with
  | 0 => []
  | fuel + 1 =>
    match cdNext dev s with
    | RustResult.ok (some d, s') => d :: cdRun dev s' fuel
    | _ => []

/-- Any run of the iterator from a state with idx at most count - 1
yields at most count - 1 - idx descriptors: idx grows by one per yielded
item and next returns None once idx reaches count - 1. -/
theorem cdRun_length_le (dev : Nat → Except Int (Option Nat)) :
    ∀ (fuel : Nat) (s : ConfigurationDescriptors),
      s.idx ≤ s.configuration_count - 1 →
      (cdRun dev s fuel).length ≤ s.configuration_count - 1 - s.idx := by
  intro fuel
  induction fuel with
  | zero => intro s _; simp [cdRun]
  | succ fuel ih =>
    intro s hs
    by_cases h0 : s.configuration_count = 0
    · simp [cdRun, cdNext, h0]
    · by_cases hlast : s.idx = s.configuration_count - 1
      · simp [cdRun, cdNext, h0, hlast]
      · cases hdev : dev s.idx with
        | error e => simp [cdRun, cdNext, h0, hlast, hdev]
        | ok ptr =>
          cases ptr with
          | none => simp [cdRun, cdNext, h0, hlast, hdev]
          | some d =>
            have hlt : s.idx < s.configuration_count - 1 :=
              lt_of_le_of_ne hs hlast
            have hrec := ih { s with idx := s.idx + 1 } (by simpa using hlt)
            simp only [cdRun, cdNext, h0, if_false, hlast, hdev] at *
            simp only [if_neg h0, if_neg hlast, List.length_cons]
            omega

/-- C10: the iterator returned by configuration_descriptors yields at
most N - 1 descriptors when the device descriptor reports N
configurations; next returns None as soon as its index equals N - 1, so
the last reported configuration is never produced; and for N = 0 the
comparison evaluates the u8 subtraction 0 - 1, an arithmetic overflow,
before any bounds decision — next is total only when N is at least 1. -/
theorem c10_configuration_descriptors_off_by_one :
    (∀ (dev : Nat → Except Int (Option Nat)) (count fuel : Nat),
      (cdRun dev (configuration_descriptors count) fuel).length ≤ count - 1) ∧
    (∀ (dev : Nat → Except Int (Option Nat)) (s : ConfigurationDescriptors),
      1 ≤ s.configuration_count → s.idx = s.configuration_count - 1 →
      cdNext dev s = RustResult.ok (none, s)) ∧
    (∀ (dev : Nat → Except Int (Option Nat)) (s : ConfigurationDescriptors),
      s.configuration_count = 0 → cdNext dev s = RustResult.panicked) := by
  refine ⟨?_, ?_, ?_⟩
  · intro dev count fuel
    have h := cdRun_length_le dev fuel (configuration_descriptors count)
      (by simp [configuration_descriptors])
    simpa [configuration_descriptors] using h
  · intro dev s h1 hidx
    have h0 : s.configuration_count ≠ 0 := by omega
    simp [cdNext, h0, hidx]
  · intro dev s h0
    simp [cdNext, h0]

/-- Witness for C10 at concrete inputs: an oracle always yielding a
descriptor, a device reporting 3 configurations (the run yields at most
2), a state sitting at index N - 1 = 2 (next returns None), and a device
reporting 0 configurations (next overflows). -/
theorem c10_configuration_descriptors_off_by_one_witness :
    (cdRun (fun i => Except.ok (some i)) (configuration_descriptors 3) 10).length ≤ 2 ∧
    cdNext (fun i => Except.ok (some i)) { idx := 2, configuration_count := 3 }
      = RustResult.ok (none, { idx := 2, configuration_count := 3 }) ∧
    cdNext (fun i => Except.ok (some i)) (configuration_descriptors 0)
      = RustResult.panicked :=
  ⟨c10_configuration_descriptors_off_by_one.1 (fun i => Except.ok (some i)) 3 10,
   c10_configuration_descriptors_off_by_one.2.1 (fun i => Except.ok (some i))
     { idx := 2, configuration_count := 3 } (by decide) (by decide),
   c10_configuration_descriptors_off_by_one.2.2 (fun i => Except.ok (some i))
     (configuration_descriptors 0) (by decide)⟩

/-- Reads the 2-byte descriptor header (length, type) at position p of a
byte region, or none when fewer than two bytes remain there. -/
def headerAt (r : List Nat) (p : Nat) : Option (Nat × Nat) :=
  match r.drop p with
  | len :: ty :: _ => some (len, ty)
  | _ => none

/-- Modelled from the spec: the advance step shared by the native walker
functions IOUSBGetNextDescriptor, IOUSBGetNextDescriptorWithType,
IOUSBGetNextAssociatedDescriptor and IOUSBGetNextEndpointDescriptor,
which the crate only binds (their implementations live in the external
IOUSBHost framework, not under src). Following section 4.1 of the spec,
walkFromAux lists the records a walker yields from position p: it reads
the header at p; a record whose declared length is 0 or 1 is treated as
corrupt and traversal stops immediately; a record that does not fit
entirely within the region stops traversal (malformed region); a record
whose type is in the boundary set ends an association scope; otherwise
the record is yielded when it passes the optional type filter, and the
walk continues at p plus the declared length. The fuel argument makes the
recursion structural; the stabilization theorem below shows any fuel
beyond the region length gives the same walk. -/
def walkFromAux (r : List Nat) (tf : Option Nat) (bd : List Nat)
    (fuel : Nat) (p : Nat) : List (Nat × Nat × Nat) :=
  match fuel with
  | 0 => []
  | fuel + 1 =>
    match headerAt r p with
    | none => []
    | some (len, ty) =>
      if len < 2 then []
      else if r.length < p + len then []
      else if ty ∈ bd then []
      else
        let rest := walkFromAux r tf bd fuel (p + len)
        match tf with
        | some t => if ty = t then (p, len, ty) :: rest else rest
        | none => (p, len, ty) :: rest

/-- The walk from position p with the fuel fixed at one more than the
region length, which the stabilization theorem shows is always enough. -/
def walkFrom (r : List Nat) (tf : Option Nat) (bd : List Nat) (p : Nat) :
    List (Nat × Nat × Nat) :=
  walkFromAux r tf bd (r.length + 1) p

/-- Modelled from the spec: the record sequence produced by the Rust
Descriptors iterator (unfiltered walker, src/iousbhost/src/lib.rs lines
1783-1794 over the native IOUSBGetNextDescriptor), which starts with a
null current descriptor and so yields from the start of the region. -/
def descriptors_walk (r : List Nat) : List (Nat × Nat × Nat) :=
  walkFrom r none [] 0

/-- Modelled from the spec: the record sequence produced by the Rust
TypedDescriptors iterator (type-filtered walker,
src/iousbhost/src/lib.rs lines 1803-1819). -/
def descriptors_with_type_walk (r : List Nat) (t : Nat) : List (Nat × Nat × Nat) :=
  walkFrom r (some t) [] 0

/-- Modelled from the spec: the boundary types that end the scope of an
owning descriptor — the next descriptor starting a group of the same or
higher nesting level. For an owning Interface (type 4) the scope ends at
the next Interface or InterfaceAssociation (type 11); otherwise at the
next record of the owner's own type. -/
def sameOrHigherBoundary (aty : Nat) : List Nat :=
  if aty = 4 then [4, 11] else [aty]

/-- Modelled from the spec: the record sequence produced by the Rust
AssociatedDescriptors iterator (association-scoped walker,
src/iousbhost/src/lib.rs lines 1828-1844): it yields the records
textually following the owning descriptor at assocPos up to the next
same-or-higher boundary. An unreadable owner yields nothing. -/
def associated_descriptors_walk (r : List Nat) (assocPos : Nat) :
    List (Nat × Nat × Nat) :=
  match headerAt r assocPos with
  | some (alen, aty) => walkFrom r none (sameOrHigherBoundary aty) (assocPos + alen)
  | none => []

/-- Modelled from the spec: the record sequence produced by the Rust
EndpointDescriptors iterator (src/iousbhost/src/lib.rs lines 2039-2055):
endpoint records (type 5) scoped to the owning interface descriptor at
ifacePos, ending at the next Interface or InterfaceAssociation. -/
def endpoint_descriptors_walk (r : List Nat) (ifacePos : Nat) :
    List (Nat × Nat × Nat) :=
  match headerAt r ifacePos with
  | some (alen, _) => walkFrom r (some 5) (sameOrHigherBoundary 4) (ifacePos + alen)
  | none => []

/-- A successful header read leaves at least two bytes at p. -/
theorem headerAt_bound {r : List Nat} {p len ty : Nat}
    (h : headerAt r p = some (len, ty)) : p + 2 ≤ r.length := by
  unfold headerAt at h
  cases hd : r.drop p with
  | nil => rw [hd] at h; exact absurd h (by simp)
  | cons a tail =>
    cases tail with
    | nil => rw [hd] at h; exact absurd h (by simp)
    | cons b tail' =>
      have hlen : 2 ≤ (r.drop p).length := by rw [hd]; simp
      rw [List.length_drop] at hlen
      omega

/-- Every walk yields at most half the remaining bytes in records:
each yielded or skipped record advances the position by its declared
length, which is at least 2. -/
theorem walkFromAux_length_le (r : List Nat) (tf : Option Nat) (bd : List Nat) :
    ∀ (fuel p : Nat), (walkFromAux r tf bd fuel p).length ≤ (r.length - p) / 2 := by
  intro fuel
  induction fuel with
  | zero => intro p; simp [walkFromAux]
  | succ fuel ih =>
    intro p
    unfold walkFromAux
    cases hh : headerAt r p with
    | none => simp
    | some hd =>
      obtain ⟨len, ty⟩ := hd
      by_cases hlen : len < 2
      · simp [hlen]
      · by_cases hfit : r.length < p + len
        · simp [hlen, hfit]
        · by_cases hbd : ty ∈ bd
          · simp [hlen, hfit, hbd]
          · have hp2 : p + 2 ≤ r.length := headerAt_bound hh
            have hrec := ih (p + len)
            cases tf with
            | none =>
              simp only [hlen, hfit, hbd, if_false, List.length_cons]
              omega
            | some t =>
              by_cases hty : ty = t
              · subst hty
                simp only [if_neg hlen, if_neg hfit, if_neg hbd, if_pos rfl,
                  eq_self_iff_true, if_true, List.length_cons]
                omega
              · simp only [hlen, hfit, hbd, hty, if_false]
                omega

/-- Termination of the walk: once the fuel exceeds the number of bytes
from the current position to the region end, adding fuel does not change
the walk — the traversal has reached its natural end. -/
theorem walkFromAux_stable (r : List Nat) (tf : Option Nat) (bd : List Nat) :
    ∀ (k fuel fuel' p : Nat), r.length - p ≤ k →
      k < fuel → k < fuel' →
      walkFromAux r tf bd fuel p = walkFromAux r tf bd fuel' p := by
  intro k
  induction k with
  | zero =>
    intro fuel fuel' p hk hf hf'
    obtain ⟨f, rfl⟩ : ∃ f, fuel = f + 1 := ⟨fuel - 1, by omega⟩
    obtain ⟨f', rfl⟩ : ∃ f', fuel' = f' + 1 := ⟨fuel' - 1, by omega⟩
    unfold walkFromAux
    cases hh : headerAt r p with
    | none => simp
    | some hd =>
      obtain ⟨len, ty⟩ := hd
      have := headerAt_bound hh
      omega
  | succ k ih =>
    intro fuel fuel' p hk hf hf'
    obtain ⟨f, rfl⟩ : ∃ f, fuel = f + 1 := ⟨fuel - 1, by omega⟩
    obtain ⟨f', rfl⟩ : ∃ f', fuel' = f' + 1 := ⟨fuel' - 1, by omega⟩
    unfold walkFromAux
    cases hh : headerAt r p with
    | none => simp
    | some hd =>
      obtain ⟨len, ty⟩ := hd
      by_cases hlen : len < 2
      · simp [hlen]
      · by_cases hfit : r.length < p + len
        · simp [hlen, hfit]
        · by_cases hbd : ty ∈ bd
          · simp [hlen, hfit, hbd]
          · have hp2 : p + 2 ≤ r.length := headerAt_bound hh
            have hrec : walkFromAux r tf bd f (p + len)
                = walkFromAux r tf bd f' (p + len) := by
              refine ih f f' (p + len) ?_ ?_ ?_ <;> omega
            simp only [hlen, hfit, hbd, if_false, hrec]

/-- C5: every walker — unfiltered, type-filtered, association-scoped and
endpoint — yields at most N/2 items on a region of N bytes; the
traversal always terminates, in the sense that the walk is unchanged by
any fuel beyond the region length, having reached its natural end; and a
record declaring length 0 or 1 stops traversal immediately, yielding
nothing from it. -/
theorem c5_walkers_bounded_and_terminate :
    (∀ r, (descriptors_walk r).length ≤ r.length / 2) ∧
    (∀ r t, (descriptors_with_type_walk r t).length ≤ r.length / 2) ∧
    (∀ r a, (associated_descriptors_walk r a).length ≤ r.length / 2) ∧
    (∀ r i, (endpoint_descriptors_walk r i).length ≤ r.length / 2) ∧
    (∀ r tf bd fuel fuel' p, r.length < fuel → r.length < fuel' →
      walkFromAux r tf bd fuel p = walkFromAux r tf bd fuel' p) ∧
    (∀ r tf bd p len ty, headerAt r p = some (len, ty) → len < 2 →
      walkFrom r tf bd p = []) := by
  have hgen : ∀ r tf bd p, (walkFrom r tf bd p).length ≤ r.length / 2 := by
    intro r tf bd p
    have h := walkFromAux_length_le r tf bd (r.length + 1) p
    calc (walkFrom r tf bd p).length ≤ (r.length - p) / 2 := h
    _ ≤ r.length / 2 := by omega
  refine ⟨fun r => hgen r none [] 0, fun r t => hgen r (some t) [] 0, ?_, ?_, ?_, ?_⟩
  · intro r a
    unfold associated_descriptors_walk
    cases hh : headerAt r a with
    | none => simp
    | some hd => exact hgen r none (sameOrHigherBoundary hd.2) (a + hd.1)
  · intro r i
    unfold endpoint_descriptors_walk
    cases hh : headerAt r i with
    | none => simp
    | some hd => exact hgen r (some 5) (sameOrHigherBoundary 4) (i + hd.1)
  · intro r tf bd fuel fuel' p hf hf'
    exact walkFromAux_stable r tf bd r.length fuel fuel' p (by omega) hf hf'
  · intro r tf bd p len ty hh hlen
    unfold walkFrom walkFromAux
    rw [hh]
    simp [hlen]

/-- Witness for C5 at concrete inputs: the bound on a concrete region, a
concrete stabilization instance, and a region whose second record
declares length 1 stopping the typed walk at once. -/
theorem c5_walkers_bounded_and_terminate_witness :
    (descriptors_walk [2, 9, 2, 9]).length ≤ 2 ∧
    walkFromAux [2, 9, 2, 9] none [] 5 0 = walkFromAux [2, 9, 2, 9] none [] 7 0 ∧
    walkFrom [1, 5, 0, 0] (some 5) [] 0 = [] :=
  ⟨c5_walkers_bounded_and_terminate.1 [2, 9, 2, 9],
   c5_walkers_bounded_and_terminate.2.2.2.2.1 [2, 9, 2, 9] none [] 5 7 0
     (by decide) (by decide),
   c5_walkers_bounded_and_terminate.2.2.2.2.2 [1, 5, 0, 0] (some 5) [] 0 1 5
     (by decide) (by decide)⟩

/-- The hand-built descriptor region of the traversal-fidelity property:
records of types Device (18 bytes at 0), Configuration (9 bytes at 18),
Interface (9 bytes at 27), Endpoint (7 bytes at 36) and Endpoint
(7 bytes at 43), 50 bytes in total. -/
def fidelityRegion : List Nat :=
  [18, 1, 0, 0, 0, 0, 0, 0, 0, 0, 0, 0, 0, 0, 0, 0, 0, 0,
   9, 2, 0, 0, 0, 0, 0, 0, 0,
   9, 4, 0, 0, 0, 0, 0, 0, 0,
   7, 5, 0, 0, 0, 0, 0,
   7, 5, 0, 0, 0, 0, 0]

/-- C6: on the hand-built region the type-filtered walker for Endpoint
(type 5) yields exactly the two endpoint records in original order, and
the association-scoped walker rooted at the Interface record (position
27) yields exactly the two endpoint records that follow it before the
next Interface or InterfaceAssociation boundary. -/
theorem c6_walker_fidelity :
    descriptors_with_type_walk fidelityRegion 5 = [(36, 7, 5), (43, 7, 5)] ∧
    associated_descriptors_walk fidelityRegion 27 = [(36, 7, 5), (43, 7, 5)] := by
  constructor <;> rfl

/-- The command kinds the state-machine claims mention; each machine maps
its concrete command set (PowerOn, DeviceCreate, EndpointCreate, ...)
onto this shape. -/
inductive SMCommand where
  | create
  | destroy
  | pause
  | start
deriving DecidableEq, Repr

/-- The response status distilled to what the spec transition rules
depend on: Success or a failure status. -/
inductive SMStatus where
  | success
  | failure
deriving DecidableEq, Repr

/-- The error kinds of the spec taxonomy that the state-machine claims
name. -/
inductive SMError where
  | alreadyTerminal
  | illegalTransition
deriving DecidableEq, Repr

/-- A state machine shape shared by the four HCI machines: its terminal
state, its Active state, and the post-condition state each command
transitions to on Success. -/
structure SpecMachine (σ : Type) where
  terminal : σ
  active : σ
  applyCmd : σ → SMCommand → σ

/-- Modelled from the spec: the respond operation of the native
IOUSBHostCI state machines, which the crate only binds (the transition
logic lives in the external IOUSBHost framework, not under src).
Following section 4.4 of the spec: the terminal state is absorbing — a
respond attempted there fails with the AlreadyTerminal kind (the
InvalidObject error) without mutating anything; a Create response on an
already-Active machine fails with the IllegalTransition kind with the
state unchanged; otherwise a Success status applies the transition
implied by the command and a failure status leaves the state as it
was. -/
def specRespond {σ : Type} [DecidableEq σ] (m : SpecMachine σ) (s : σ)
    (cmd : SMCommand) (status : SMStatus) : Except SMError σ :=
  if s = m.terminal then Except.error SMError.alreadyTerminal
  else if cmd = SMCommand.create ∧ s = m.active then
    Except.error SMError.illegalTransition
  else
    match status with
    | SMStatus.success => Except.ok (m.applyCmd s cmd)
    | SMStatus.failure => Except.ok s

/-- The state observable after a respond call: the new state on Ok, the
unchanged prior state when respond failed. -/
def specRespondState {σ : Type} [DecidableEq σ] (m : SpecMachine σ) (s : σ)
    (cmd : SMCommand) (status : SMStatus) : σ :=
  match specRespond m s cmd status with
  | Except.ok s' => s'
  | Except.error _ => s

/-- The controller states of spec section 3. -/
inductive ControllerState where
  | off
  | paused
  | active
deriving DecidableEq, Repr

/-- The port states of spec section 3. -/
inductive PortState where
  | off
  | powered
  | suspended
  | active
deriving DecidableEq, Repr

/-- The device states of spec section 3. -/
inductive DeviceState where
  | destroyed
  | paused
  | active
deriving DecidableEq, Repr

/-- The endpoint states of spec section 3. -/
inductive EndpointState where
  | destroyed
  | halted
  | paused
  | active
deriving DecidableEq, Repr

/-- Modelled from the spec: the controller machine — terminal state Off;
Create (PowerOn) to Active, Destroy (PowerOff) to Off, Pause to Paused,
Start to Active. -/
def controllerMachine : SpecMachine ControllerState :=
  { terminal := ControllerState.off
    active := ControllerState.active
    applyCmd := fun _ cmd =>
      match cmd with
      | SMCommand.create => ControllerState.active
      | SMCommand.destroy => ControllerState.off
      | SMCommand.pause => ControllerState.paused
      | SMCommand.start => ControllerState.active }

/-- Modelled from the spec: the port machine — terminal state Off;
its pause-analogue (Suspend) goes to Suspended. -/
def portMachine : SpecMachine PortState :=
  { terminal := PortState.off
    active := PortState.active
    applyCmd := fun _ cmd =>
      match cmd with
      | SMCommand.create => PortState.active
      | SMCommand.destroy => PortState.off
      | SMCommand.pause => PortState.suspended
      | SMCommand.start => PortState.active }

/-- Modelled from the spec: the device machine — terminal state
Destroyed. -/
def deviceMachine : SpecMachine DeviceState :=
  { terminal := DeviceState.destroyed
    active := DeviceState.active
    applyCmd := fun _ cmd =>
      match cmd with
      | SMCommand.create => DeviceState.active
      | SMCommand.destroy => DeviceState.destroyed
      | SMCommand.pause => DeviceState.paused
      | SMCommand.start => DeviceState.active }

/-- Modelled from the spec: the endpoint machine — terminal state
Destroyed (Halted is reached only through the failure-escalation rule,
which these claims do not exercise). -/
def endpointMachine : SpecMachine EndpointState :=
  { terminal := EndpointState.destroyed
    active := EndpointState.active
    applyCmd := fun _ cmd =>
      match cmd with
      | SMCommand.create => EndpointState.active
      | SMCommand.destroy => EndpointState.destroyed
      | SMCommand.pause => EndpointState.paused
      | SMCommand.start => EndpointState.active }

/-- C7: for each of the four machines and every status, a Destroy
response in the terminal state fails with the AlreadyTerminal kind and
the observable state stays terminal, and a Create response in the Active
state fails with the IllegalTransition kind and the observable state
stays Active. -/
theorem c7_terminal_absorbing_and_create_illegal :
    ∀ status : SMStatus,
      (specRespond controllerMachine ControllerState.off SMCommand.destroy status
          = Except.error SMError.alreadyTerminal ∧
        specRespondState controllerMachine ControllerState.off SMCommand.destroy status
          = ControllerState.off ∧
        specRespond controllerMachine ControllerState.active SMCommand.create status
          = Except.error SMError.illegalTransition ∧
        specRespondState controllerMachine ControllerState.active SMCommand.create status
          = ControllerState.active) ∧
      (specRespond portMachine PortState.off SMCommand.destroy status
          = Except.error SMError.alreadyTerminal ∧
        specRespondState portMachine PortState.off SMCommand.destroy status
          = PortState.off ∧
        specRespond portMachine PortState.active SMCommand.create status
          = Except.error SMError.illegalTransition ∧
        specRespondState portMachine PortState.active SMCommand.create status
          = PortState.active) ∧
      (specRespond deviceMachine DeviceState.destroyed SMCommand.destroy status
          = Except.error SMError.alreadyTerminal ∧
        specRespondState deviceMachine DeviceState.destroyed SMCommand.destroy status
          = DeviceState.destroyed ∧
        specRespond deviceMachine DeviceState.active SMCommand.create status
          = Except.error SMError.illegalTransition ∧
        specRespondState deviceMachine DeviceState.active SMCommand.create status
          = DeviceState.active) ∧
      (specRespond endpointMachine EndpointState.destroyed SMCommand.destroy status
          = Except.error SMError.alreadyTerminal ∧
        specRespondState endpointMachine EndpointState.destroyed SMCommand.destroy status
          = EndpointState.destroyed ∧
        specRespond endpointMachine EndpointState.active SMCommand.create status
          = Except.error SMError.illegalTransition ∧
        specRespondState endpointMachine EndpointState.active SMCommand.create status
          = EndpointState.active) := by
  intro status
  cases status <;>
    exact ⟨⟨rfl, rfl, rfl, rfl⟩, ⟨rfl, rfl, rfl, rfl⟩,
      ⟨rfl, rfl, rfl, rfl⟩, ⟨rfl, rfl, rfl, rfl⟩⟩

/-- Modelled from the spec: IOUSBGetConfigurationMaxPowerMilliAmps, the
native power derivation the crate binds (its implementation lives in the
external IOUSBHost framework, not under src). Per the spec table, the
raw MaxPower byte of the configuration descriptor is expressed in units
of 8 mA at SuperSpeed and faster and 2 mA at the USB 2.0 speed classes,
so the derived value is the byte times the per-speed-class unit. -/
def IOUSBGetConfigurationMaxPowerMilliAmps (speed : DeviceSpeed) (maxPower : Nat) : Nat :=
  match speed with
  | DeviceSpeed.Super => maxPower * 8
  | DeviceSpeed.SuperPlus => maxPower * 8
  | DeviceSpeed.SuperPlusBy2 => maxPower * 8
  | _ => maxPower * 2

/-- Embeds ConfigurationDescriptor::max_power_milliamps
(src/iousbhost/src/lib.rs lines 1749-1751), which forwards the device
speed and the descriptor (abstracted here by its MaxPower byte) to the
native derivation. -/
def max_power_milliamps (speed : DeviceSpeed) (maxPower : Nat) : Nat :=
  IOUSBGetConfigurationMaxPowerMilliAmps speed maxPower

/-- The per-speed-class milliamp unit of the spec table. -/
def maxPowerUnit (speed : DeviceSpeed) : Nat :=
  match speed with
  | DeviceSpeed.Super => 8
  | DeviceSpeed.SuperPlus => 8
  | DeviceSpeed.SuperPlusBy2 => 8
  | _ => 2

/-- C8: for every speed class and MaxPower byte the derived milliamp
value is the raw byte times the per-speed-class unit; in particular
MaxPower 50 gives 50 times 8 mA at SuperSpeed and 50 times 2 mA at each
USB 2.0 speed class. -/
theorem c8_max_power_milliamps_table :
    (∀ (speed : DeviceSpeed) (maxPower : Nat),
      max_power_milliamps speed maxPower = maxPower * maxPowerUnit speed) ∧
    max_power_milliamps DeviceSpeed.Super 50 = 50 * 8 ∧
    max_power_milliamps DeviceSpeed.SuperPlus 50 = 50 * 8 ∧
    max_power_milliamps DeviceSpeed.High 50 = 50 * 2 ∧
    max_power_milliamps DeviceSpeed.Full 50 = 50 * 2 ∧
    max_power_milliamps DeviceSpeed.Low 50 = 50 * 2 := by
  refine ⟨?_, rfl, rfl, rfl, rfl, rfl⟩
  intro speed maxPower
  cases speed <;> rfl
